import Mathlib

/-!
Verification of the async library data-access layer (models.py, crud.py,
decorator.py) against its specification.  Dates are embedded as integers
(days); table rows become Lean structures; Python exceptions become
`Except` values.
-/

namespace Library

/-! ### Data model and operations -/

/-- Error kinds raised or classified by the system: Python `TypeError`,
SQLAlchemy `IntegrityError`, the decorator's `RuntimeError` for inactive
sessions, `MultipleResultsFound` from `scalar_one_or_none`, and generic
operational / SQLAlchemy errors. -/
inductive Err where
  | typeError
  | integrityError
  | runtimeError
  | multipleResults
  | operationalError
  | sqlalchemyError
deriving DecidableEq, Repr

/-- `true` when the Python call returned normally, `false` when it raised. -/
def accepted {ε α : Type} : Except ε α → Bool
  | .ok _ => true
  | .error _ => false

/-- A persisted `Loan` row (models.py `Loan`): `due_date` is NOT NULL in the
table, `return_date` is nullable with server default NULL. -/
structure Loan where
  id : Nat
  book_id : Nat
  reader_id : Nat
  loan_date : Int
  due_date : Int
  return_date : Option Int
deriving DecidableEq, Repr

/-- In-memory hybrid property `Loan.status` (models.py lines 121-135):
`if return_date is None and due_date >= today: active;
elif return_date is None and due_date < today: overdue; else: returned`. -/
def Loan.statusMem (l : Loan) (today : Int) : String :=
  if l.return_date = none ∧ l.due_date ≥ today then "active"
  else if l.return_date = none ∧ l.due_date < today then "overdue"
  else "returned"

/-- Store-side `case` expression for `Loan.status` (models.py lines 138-144):
`case(return_date isnot null => returned, due_date < current_date => overdue,
else active)`. -/
def Loan.statusExpr (l : Loan) (today : Int) : String :=
  if l.return_date ≠ none then "returned"
  else if l.due_date < today then "overdue"
  else "active"

/-- Modelled from the spec: the canonical three-way precedence rule
(returned > overdue > active) over a loan row's fields. -/
def specStatus (return_date : Option Int) (due_date today : Int) : String :=
  if return_date.isSome then "returned"
  else if due_date < today then "overdue"
  else "active"

/-- A `Loan` object as constructed by `crud.create_loan` before the flush:
`loan_date` and `due_date` may both still be absent (their table defaults
are server-side). -/
structure PendingLoan where
  book_id : Nat
  reader_id : Nat
  loan_date : Option Int
  due_date : Option Int
deriving DecidableEq, Repr

/-- The `before_insert` hook `set_due_date` (models.py lines 156-159):
`if target.due_date is None: target.due_date = target.loan_date +
timedelta(days=14)`.  When `loan_date` is also `None` (its server default
has not been applied yet at this point), the Python addition
`None + timedelta` raises `TypeError`. -/
def set_due_date (target : PendingLoan) : Except Err PendingLoan :=
  if target.due_date = none then
    match target.loan_date with
    | some ld => .ok { target with due_date := some (ld + 14) }
    | none => .error .typeError
  else .ok target

/-- The loan table of the store. -/
structure DB where
  loans : List Loan
deriving DecidableEq, Repr

/-- SQL equality of two nullable column values under the store's default
NULLS DISTINCT semantics: a comparison involving NULL is never a match, so
two NULLs do not collide in a unique index. -/
def sqlEq (a b : Option Int) : Bool :=
  match a, b with
  | some x, some y => x == y
  | _, _ => false

/-- The partial unique index `id_return_date_idx` (models.py lines 146-153):
unique over the pair `(book_id, return_date)`, restricted to rows where
`return_date IS NULL`.  A new row violates it when it is covered by the
predicate and some covered existing row carries an equal `(book_id,
return_date)` tuple — equality on the nullable column being SQL equality,
under which every covered tuple has a NULL that matches nothing. -/
def violatesOpenIdx (loans : List Loan) (row : Loan) : Bool :=
  row.return_date.isNone &&
    loans.any (fun l => l.return_date.isNone &&
      (l.book_id == row.book_id && sqlEq l.return_date row.return_date))

/-- Store-side INSERT of a loan row: applies the server default for
`loan_date` (`current_date`), enforces NOT NULL on `due_date` and the
declared partial unique index (violations surface as `IntegrityError`), and
appends the row.  Modelled from the column and index declarations in
models.py under the store semantics the spec assumes. -/
def insertLoan (db : DB) (p : PendingLoan) (today : Int) (newId : Nat) :
    Except Err (Loan × DB) :=
  match p.due_date with
  | none => .error .integrityError
  | some dd =>
    let row : Loan := ⟨newId, p.book_id, p.reader_id, p.loan_date.getD today, dd, none⟩
    if violatesOpenIdx db.loans row then .error .integrityError
    else .ok (row, ⟨db.loans ++ [row]⟩)

/-- `crud.create_loan` (crud.py lines 641-674): constructs the pending
`Loan` object and flushes it; the flush fires the `before_insert` hook and
then the INSERT. -/
def create_loan (db : DB) (book_id reader_id : Nat)
    (loan_date due_date : Option Int) (today : Int) (newId : Nat) :
    Except Err (Loan × DB) :=
  match set_due_date ⟨book_id, reader_id, loan_date, due_date⟩ with
  | .error e => .error e
  | .ok p => insertLoan db p today newId

/-- The open (not yet returned) loans of the table. -/
def openLoans (loans : List Loan) : List Loan :=
  loans.filter (fun l => l.return_date.isNone)

/-- At most one open loan per book: the open rows have pairwise distinct
`book_id`. -/
@[reducible]
def atMostOneOpenPerBook (loans : List Loan) : Prop :=
  (openLoans loans).Pairwise (fun a b => a.book_id ≠ b.book_id)

/-- Python's Unicode-aware `str.isdigit`: true not only on the ASCII decimal
digits but on every character of Unicode Numeric_Type Digit or Decimal.
The full Unicode table is impractical to embed; this model covers the ASCII
digits plus the Latin-1 superscript digits '¹', '²', '³' (all isdigit-true
in Python), and is exactly faithful on every character of every string this
file evaluates. -/
def pyIsDigit (c : Char) : Bool :=
  c.isDigit || c == '¹' || c == '²' || c == '³'

/-- The per-character loop of `Book.check_isbn` (models.py lines 53-55):
raises `ValueError` at the first character failing `str.isdigit`. -/
def check_isbn_loop : List Char → Except String Unit
  | [] => .ok ()
  | c :: rest =>
    if !(pyIsDigit c) then .error "non-digit in isbn" else check_isbn_loop rest

/-- `Book.check_isbn` validator (models.py lines 49-56): length must be 13,
then every character must be a digit; runs at assignment, before any store
interaction. -/
def check_isbn (value : String) : Except String String :=
  if value.length ≠ 13 then .error "isbn does not have 13 chars"
  else
    match check_isbn_loop value.toList with
    | .ok _ => .ok value
    | .error e => .error e

/-- Python substring containment (the `in` operator on `str`): the needle
occurs contiguously anywhere inside the haystack. -/
def strContains (value sub : String) : Bool :=
  decide (sub.toList <:+: value.toList)

/-- Python `str.startswith`, over the code-point sequences. -/
def strStartsWith (value pre : String) : Bool :=
  pre.toList.isPrefixOf value.toList

/-- Python `str.endswith`, over the code-point sequences. -/
def strEndsWith (value suf : String) : Bool :=
  suf.toList.isSuffixOf value.toList

/-- The allow-list loop of `Reader.check_email` (models.py lines 92-96):
returns the value at the first suffix contained in it, raises `ValueError`
when none is. -/
def check_email_loop (value : String) : List String → Except String String
  | [] => .error "this is not an email"
  | e :: rest =>
    if strContains value e then .ok value else check_email_loop value rest

/-- `Reader.check_email` validator (models.py lines 90-96): accepts a value
iff it contains one of "@mail.ru", "@yandex.ru", "@gmail.com" as a
substring; runs at assignment, before persistence. -/
def check_email (value : String) : Except String String :=
  check_email_loop value ["@mail.ru", "@yandex.ru", "@gmail.com"]

/-- `Reader.check_phone` validator (models.py lines 98-104), with Python
truthiness made explicit: `None` and `""` are falsy, so an absent or empty
phone normalizes to `None`; a non-empty value is accepted iff it starts
with "+7" or "8" and has length 12 or 11. -/
def check_phone (value : Option String) : Except String (Option String) :=
  match value with
  | some v =>
    if v ≠ "" then
      if (strStartsWith v "+7" || strStartsWith v "8") &&
          (v.length == 12 || v.length == 11) then .ok (some v)
      else .error "bad phone format"
    else .ok none
  | none => .ok none

/-- A table of rows keyed by surrogate primary key.  Embeds the per-entity
tables of Author, Book, Reader and Loan, whose CRUD operations in crud.py
are textually identical up to the entity. -/
def deleteById {α : Type} (table : List (Nat × α)) (key : Nat) :
    List (Nat × α) × Bool :=
  (table.filter (fun r => !(r.1 == key)),
   decide (0 < (table.filter (fun r => r.1 == key)).length))

/-- `UPDATE t SET ... WHERE t.id = key RETURNING *` (crud.update_author,
crud.py lines 95-116, and its Book/Reader/Loan clones): first component is
the table after the update, second the RETURNING result set. -/
def updateById {α : Type} (table : List (Nat × α)) (key : Nat) (f : α → α) :
    List (Nat × α) × List (Nat × α) :=
  (table.map (fun r => if r.1 = key then (r.1, f r.2) else r),
   (table.map (fun r => if r.1 = key then (r.1, f r.2) else r)).filter
     (fun r => r.1 == key))

/-- SQLAlchemy `Result.scalar_one_or_none`: `None` on an empty result set,
the row on a singleton, `MultipleResultsFound` otherwise. -/
def scalar_one_or_none {β : Type} : List β → Except Err (Option β)
  | [] => .ok none
  | [x] => .ok (some x)
  | _ :: _ :: _ => .error .multipleResults

/-- An async session: the only observable the decorator checks. -/
structure Session where
  is_active : Bool
deriving DecidableEq, Repr

/-- `decorator.exception_decorator` (decorator.py lines 15-39): the wrapper
raises `RuntimeError` when the session is not active, before invoking the
wrapped operation; every exception class raised by the operation is logged
and re-raised unchanged. -/
def exception_decorator {α : Type} (f : Session → Except Err α)
    (db : Session) : Except Err α :=
  if !db.is_active then .error .runtimeError
  else
    match f db with
    | .ok a => .ok a
    | .error e => .error e

/-- A `Reader` row (models.py `Reader`), restricted to the columns the
claims mention. -/
structure Reader where
  id : Nat
  email : String
  is_active : Bool
deriving DecidableEq, Repr

/-- `crud.deactivate_reader` (crud.py lines 447-466): `UPDATE reader SET
is_active = false WHERE id = reader_id RETURNING *`. -/
def deactivate_reader (table : List (Nat × Reader)) (reader_id : Nat) :
    List (Nat × Reader) × List (Nat × Reader) :=
  updateById table reader_id (fun r => { r with is_active := false })

/-- `crud.return_book` (crud.py lines 677-696): `UPDATE loan SET
return_date = today WHERE id = loan_id RETURNING *`. -/
def return_book (table : List (Nat × Loan)) (loan_id : Nat) (today : Int) :
    List (Nat × Loan) × List (Nat × Loan) :=
  updateById table loan_id (fun l => { l with return_date := some today })

/-- `crud.get_debtors` (crud.py lines 699-717): `SELECT DISTINCT reader
FROM reader, loan WHERE reader.id = loan.reader_id AND status = 'overdue'`,
with `status` the store-side case expression. -/
def get_debtors (readers : List Reader) (loans : List Loan) (today : Int) :
    List Reader :=
  (readers.flatMap (fun r => loans.filterMap (fun l =>
      if r.id = l.reader_id ∧ Loan.statusExpr l today = "overdue" then some r
      else none))).dedup

/-! ### Theorems -/

/-- C1: the in-memory status evaluator and the store-side case expression
agree on every Loan row at every instant, and both follow the spec's
precedence (returned if return_date set; else overdue if due_date < today;
else active); in particular due_date = yesterday with no return_date gives
"overdue", due_date = tomorrow gives "active", and return_date = today
gives "returned" regardless of due_date. -/
theorem C1_status_evaluators_agree :
    (∀ (l : Loan) (today : Int),
        l.statusMem today = l.statusExpr today ∧
        l.statusExpr today = specStatus l.return_date l.due_date today)
    ∧ (∀ (i b r : Nat) (ld today : Int),
        Loan.statusMem ⟨i, b, r, ld, today - 1, none⟩ today = "overdue")
    ∧ (∀ (i b r : Nat) (ld today : Int),
        Loan.statusMem ⟨i, b, r, ld, today + 1, none⟩ today = "active")
    ∧ (∀ (i b r : Nat) (ld dd today : Int),
        Loan.statusMem ⟨i, b, r, ld, dd, some today⟩ today = "returned") := by
  refine ⟨fun l today => ?_, fun i b r ld today => ?_, fun i b r ld today => ?_,
    fun i b r ld dd today => ?_⟩
  · cases h : l.return_date with
    | none =>
      simp only [Loan.statusMem, Loan.statusExpr, specStatus, h]
      constructor
      · split_ifs <;> (simp_all; try omega)
      · simp
    | some d =>
      simp only [Loan.statusMem, Loan.statusExpr, specStatus, h]
      constructor
      · split_ifs <;> simp_all
      · simp
  · simp only [Loan.statusMem]
    split_ifs <;> simp_all
  · simp only [Loan.statusMem]
    split_ifs <;> simp_all
  · simp only [Loan.statusMem]
    split_ifs <;> simp_all

/-- C2: creating a loan with `loan_date` supplied and no `due_date` does
set `due_date = loan_date + 14`; but creating one with neither supplied
(both documented as defaulting server-side) makes the hook compute
`None + timedelta(days=14)` and raise `TypeError`, so the auto-fill claim
fails on that input. -/
theorem C2_due_date_autofill_bug :
    create_loan ⟨[]⟩ 1 2 none none 0 1 = .error .typeError
    ∧ (∃ row db2, create_loan ⟨[]⟩ 1 2 (some 100) none 0 1 = .ok (row, db2)
        ∧ row.due_date = 114 ∧ row.return_date = none) := by
  exact ⟨rfl, ⟨_, _, rfl, rfl, rfl⟩⟩

/-- C3: the declared partial unique index never rejects any insert — every
tuple it covers has a NULL `return_date` column, and under NULLS DISTINCT
semantics no two such tuples are ever equal — so creating a second open
loan for a book that already has one succeeds, leaving two open loans for
the same book, contrary to the claimed invariant and the claimed
`IntegrityError`. -/
theorem C3_partial_index_never_conflicts :
    (∀ (loans : List Loan) (row : Loan), violatesOpenIdx loans row = false)
    ∧ (∃ row db2,
        create_loan ⟨[⟨1, 5, 2, 0, 14, none⟩]⟩ 5 3 none (some 20) 0 2 =
          .ok (row, db2)
        ∧ row.book_id = 5 ∧ row.return_date = none
        ∧ ¬ atMostOneOpenPerBook db2.loans) := by
  constructor
  · intro loans row
    unfold violatesOpenIdx
    cases hrd : row.return_date with
    | some d => simp [hrd]
    | none =>
      simp only [hrd, Option.isNone_none, Bool.true_and]
      rw [List.any_eq_false]
      intro l hl
      cases hld : l.return_date <;> simp [sqlEq, hld]
  · exact ⟨⟨2, 5, 3, 0, 20, none⟩,
      ⟨[⟨1, 5, 2, 0, 14, none⟩, ⟨2, 5, 3, 0, 20, none⟩]⟩,
      rfl, rfl, rfl, by decide⟩

theorem check_isbn_loop_ok_iff (l : List Char) :
    accepted (check_isbn_loop l) = l.all pyIsDigit := by
  induction l with
  | nil => rfl
  | cons c rest ih =>
    simp only [check_isbn_loop, List.all_cons]
    by_cases h : pyIsDigit c
    · simp [h, ih]
    · simp [h, accepted]

/-- C4: the validator's digit test is Python's Unicode-aware `str.isdigit`,
so the thirteen-character string of SUPERSCRIPT TWO (U+00B2) characters —
none of which is a decimal digit 0-9 — is accepted and persisted, although
the claim says any value containing a non-digit character is rejected; the
claim's own three examples do behave as stated. -/
theorem C4_isbn_unicode_digit_bug :
    accepted (check_isbn "²²²²²²²²²²²²²") = true
    ∧ (∀ c ∈ "²²²²²²²²²²²²²".toList, c.isDigit = false)
    ∧ accepted (check_isbn "97831614841") = false
    ∧ accepted (check_isbn "97831614841X") = false
    ∧ accepted (check_isbn "9783161484100") = true := by
  exact ⟨by decide, by decide, by decide, by decide, by decide⟩

theorem check_email_loop_ok_iff (v : String) (es : List String) :
    accepted (check_email_loop v es) = es.any (fun e => strContains v e) := by
  induction es with
  | nil => rfl
  | cons e rest ih =>
    simp only [check_email_loop, List.any_cons]
    by_cases h : strContains v e
    · simp [h, accepted]
    · simp [h, ih]

theorem check_email_accepted_eq (v : String) :
    accepted (check_email v) =
      (strContains v "@mail.ru" || strContains v "@yandex.ru" ||
        strContains v "@gmail.com") := by
  rw [check_email, check_email_loop_ok_iff]
  simp [Bool.or_assoc]

/-- C5: a string assigned as `Reader.email` is accepted exactly when it
contains one of the three allow-listed domain suffixes; "user@mail.ru" is
accepted and "user@other.com" is rejected. -/
theorem C5_email_allow_list :
    (∀ v : String,
        accepted (check_email v) =
          (strContains v "@mail.ru" || strContains v "@yandex.ru" ||
            strContains v "@gmail.com"))
    ∧ accepted (check_email "user@mail.ru") = true
    ∧ accepted (check_email "user@other.com") = false :=
  ⟨check_email_accepted_eq, by decide, by decide⟩

/-- C10: the email validator tests substring containment, not suffix
position: acceptance is exactly occurrence of one of the three allowed
strings anywhere in the value, and "user@mail.ru.attacker.com" — where
"@mail.ru" occurs but not at the end — is accepted. -/
theorem C10_email_substring_not_suffix :
    (∀ v : String,
        accepted (check_email v) = true ↔
          ("@mail.ru".toList <:+: v.toList ∨ "@yandex.ru".toList <:+: v.toList ∨
            "@gmail.com".toList <:+: v.toList))
    ∧ accepted (check_email "user@mail.ru.attacker.com") = true
    ∧ (strEndsWith "user@mail.ru.attacker.com" "@mail.ru" ||
        strEndsWith "user@mail.ru.attacker.com" "@yandex.ru" ||
        strEndsWith "user@mail.ru.attacker.com" "@gmail.com") = false := by
  refine ⟨fun v => ?_, by decide, by decide⟩
  rw [check_email_accepted_eq v]
  simp [strContains, or_assoc]

/-- C6: a non-empty phone string is accepted exactly when it starts with
"+7" or "8" and has total length 11 or 12 (otherwise a validation error is
raised); an absent or empty phone is accepted and normalized to null;
"+71234567890" is accepted, "71234567890" is rejected. -/
theorem C6_phone_validation :
    (∀ v : String, v ≠ "" →
        (check_phone (some v) = .ok (some v) ↔
          ((strStartsWith v "+7" || strStartsWith v "8") &&
            (v.length == 12 || v.length == 11)) = true)
        ∧ (((strStartsWith v "+7" || strStartsWith v "8") &&
            (v.length == 12 || v.length == 11)) = false →
          check_phone (some v) = .error "bad phone format"))
    ∧ check_phone none = .ok none
    ∧ check_phone (some "") = .ok none
    ∧ check_phone (some "+71234567890") = .ok (some "+71234567890")
    ∧ accepted (check_phone (some "71234567890")) = false := by
  refine ⟨fun v hv => ?_, rfl, rfl, rfl, rfl⟩
  unfold check_phone
  simp only [hv, ne_eq, not_false_eq_true, if_true, reduceIte]
  constructor
  · by_cases h : ((strStartsWith v "+7" || strStartsWith v "8") &&
        (v.length == 12 || v.length == 11)) = true <;> simp [h]
  · intro h
    simp [h]

/-- Witness for C6 at a concrete phone number. -/
theorem C6_phone_validation_witness :
    "+71234567890" ≠ "" ∧
    check_phone (some "+71234567890") = .ok (some "+71234567890") :=
  ⟨by decide,
   ((C6_phone_validation.1 "+71234567890" (by decide)).1).mpr (by decide)⟩

theorem deleteById_spec {α : Type} (table : List (Nat × α)) (key : Nat) :
    ((deleteById table key).2 = true ↔ key ∈ table.map Prod.fst)
    ∧ key ∉ (deleteById table key).1.map Prod.fst := by
  constructor
  · unfold deleteById
    simp only [decide_eq_true_eq]
    constructor
    · intro hp
      rw [List.length_pos_iff_exists_mem] at hp
      obtain ⟨r, hr⟩ := hp
      obtain ⟨hrt, hrk⟩ := List.mem_filter.mp hr
      exact List.mem_map.mpr ⟨r, hrt, by simpa using hrk⟩
    · intro hk
      obtain ⟨r, hrt, hrk⟩ := List.mem_map.mp hk
      rw [List.length_pos_iff_exists_mem]
      exact ⟨r, List.mem_filter.mpr ⟨hrt, by simpa using hrk⟩⟩
  · intro hmem
    obtain ⟨r, hr, hk⟩ := List.mem_map.mp hmem
    have hfil := (List.mem_filter.mp hr).2
    simp [hk] at hfil

theorem filter_key_map_update {α : Type} (key : Nat) (f : α → α) :
    ∀ (t : List (Nat × α)),
      (t.map (fun r => if r.1 = key then (r.1, f r.2) else r)).filter
          (fun r => r.1 == key) =
        (t.filter (fun r => r.1 == key)).map (fun r => (r.1, f r.2)) := by
  intro t
  induction t with
  | nil => rfl
  | cons hd tl ih =>
    by_cases h : hd.1 = key
    · simp [List.filter_cons, h, ih]
    · simp [List.filter_cons, h, ih]

theorem filter_key_eq_nil {α : Type} (table : List (Nat × α)) (key : Nat)
    (h : key ∉ table.map Prod.fst) :
    table.filter (fun r => r.1 == key) = [] := by
  rw [List.filter_eq_nil_iff]
  intro r hr
  simp only [beq_iff_eq]
  intro hk
  exact h (List.mem_map.mpr ⟨r, hr, hk⟩)

theorem filter_key_singleton {α : Type} (key : Nat) (a : α) :
    ∀ (table : List (Nat × α)), (table.map Prod.fst).Nodup →
      (key, a) ∈ table →
      table.filter (fun r => r.1 == key) = [(key, a)] := by
  intro table
  induction table with
  | nil => intro _ h; cases h
  | cons hd tl ih =>
    intro hnodup hmem
    rw [List.map_cons, List.nodup_cons] at hnodup
    rcases List.mem_cons.mp hmem with heq | htl
    · subst heq
      simp only [List.filter_cons, beq_self_eq_true, if_pos]
      rw [filter_key_eq_nil tl key hnodup.1]
    · have hne : hd.1 ≠ key := by
        intro hk
        exact hnodup.1 (by
          rw [hk]
          exact List.mem_map.mpr ⟨(key, a), htl, rfl⟩)
      simp only [List.filter_cons]
      rw [if_neg (by simpa using hne)]
      exact ih hnodup.2 htl

theorem updateById_spec {α : Type} (table : List (Nat × α)) (key : Nat)
    (f : α → α) (hnodup : (table.map Prod.fst).Nodup) :
    (scalar_one_or_none (updateById table key f).2 = .ok none ↔
      key ∉ table.map Prod.fst)
    ∧ (key ∈ table.map Prod.fst →
        ∃ a, (key, a) ∈ table ∧
          scalar_one_or_none (updateById table key f).2 =
            .ok (some (key, f a))) := by
  have h2 : (updateById table key f).2 =
      (table.filter (fun r => r.1 == key)).map (fun r => (r.1, f r.2)) := by
    unfold updateById
    exact filter_key_map_update key f table
  by_cases hk : key ∈ table.map Prod.fst
  · obtain ⟨r, hr, hfst⟩ := List.mem_map.mp hk
    have hmem : (key, r.2) ∈ table := by
      have hre : r = (key, r.2) := by
        cases r
        simp_all
      rwa [hre] at hr
    have hfil := filter_key_singleton key r.2 table hnodup hmem
    rw [h2, hfil]
    exact ⟨by simp [scalar_one_or_none, hk], fun _ => ⟨r.2, hmem, rfl⟩⟩
  · have hfil := filter_key_eq_nil table key hk
    rw [h2, hfil]
    exact ⟨by simp [scalar_one_or_none, hk], fun h => absurd h hk⟩

/-- C7: for every entity table keyed by id, delete-by-id returns `true`
exactly when a row with that id existed (and that row is gone afterwards),
and update-by-id — including `deactivate_reader`-style updates — returns
the updated row when the id exists and an empty result when it does not;
absence is a normal return value, not an error. -/
theorem C7_absence_is_valid_outcome :
    (∀ (α : Type) (table : List (Nat × α)) (key : Nat),
        ((deleteById table key).2 = true ↔ key ∈ table.map Prod.fst)
        ∧ key ∉ (deleteById table key).1.map Prod.fst)
    ∧ (∀ (α : Type) (table : List (Nat × α)) (key : Nat) (f : α → α),
        (table.map Prod.fst).Nodup →
        (scalar_one_or_none (updateById table key f).2 = .ok none ↔
          key ∉ table.map Prod.fst)
        ∧ (key ∈ table.map Prod.fst →
            ∃ a, (key, a) ∈ table ∧
              scalar_one_or_none (updateById table key f).2 =
                .ok (some (key, f a))))
    ∧ (∀ (rt : List (Nat × Reader)) (rid : Nat),
        (rt.map Prod.fst).Nodup → rid ∉ rt.map Prod.fst →
        scalar_one_or_none (deactivate_reader rt rid).2 = .ok none) := by
  refine ⟨fun α table key => deleteById_spec table key,
    fun α table key f h => updateById_spec table key f h,
    fun rt rid h habs => ?_⟩
  unfold deactivate_reader
  exact (updateById_spec rt rid _ h).1.mpr habs

/-- Witness for C7 at a concrete two-row table. -/
theorem C7_absence_is_valid_outcome_witness :
    (List.map Prod.fst [(1, "x"), (2, "y")]).Nodup ∧
    (scalar_one_or_none
        (updateById [(1, "x"), (2, "y")] 3 (fun s => s)).2 = .ok none ↔
      3 ∉ List.map Prod.fst [(1, "x"), (2, "y")]) :=
  ⟨by decide,
   (C7_absence_is_valid_outcome.2.1 String [(1, "x"), (2, "y")] 3
      (fun s => s) (by decide)).1⟩

/-- C8: a repository operation invoked on an inactive session fails loudly
with `RuntimeError` before the operation runs (the result does not depend
on the wrapped operation at all), and on an active session any error the
operation raises is propagated unchanged, never swallowed or retried. -/
theorem C8_inactive_session_fails_loudly :
    (∀ (α : Type) (f : Session → Except Err α) (db : Session),
        db.is_active = false →
        exception_decorator f db = .error .runtimeError)
    ∧ (∀ (α : Type) (f g : Session → Except Err α) (db : Session),
        db.is_active = false →
        exception_decorator f db = exception_decorator g db)
    ∧ (∀ (α : Type) (f : Session → Except Err α) (db : Session) (e : Err),
        db.is_active = true → f db = .error e →
        exception_decorator f db = .error e) := by
  refine ⟨fun α f db h => ?_, fun α f g db h => ?_, fun α f db e h hf => ?_⟩
  · simp [exception_decorator, h]
  · simp [exception_decorator, h]
  · simp [exception_decorator, h, hf]

/-- Witness for C8 on a concrete inactive session. -/
theorem C8_inactive_session_fails_loudly_witness :
    Session.is_active ⟨false⟩ = false ∧
    exception_decorator (fun _ => .ok (0 : Nat)) ⟨false⟩ =
      .error .runtimeError :=
  ⟨rfl, C8_inactive_session_fails_loudly.1 Nat (fun _ => .ok 0) ⟨false⟩ rfl⟩

/-- C9: `get_debtors` returns exactly the readers having at least one loan
whose store-side status is "overdue" (return_date null and due_date before
today), without duplicates: membership is characterized by existence of an
overdue loan, the result has no duplicate rows, and — under the primary-key
invariant — no duplicate reader ids. -/
theorem C9_debtors_characterization (readers : List Reader)
    (loans : List Loan) (today : Int)
    (hids : (readers.map Reader.id).Nodup) :
    (∀ r, r ∈ get_debtors readers loans today ↔
        r ∈ readers ∧ ∃ l ∈ loans, l.reader_id = r.id ∧
          Loan.statusExpr l today = "overdue")
    ∧ (∀ l : Loan, Loan.statusExpr l today = "overdue" ↔
        l.return_date = none ∧ l.due_date < today)
    ∧ (get_debtors readers loans today).Nodup
    ∧ ((get_debtors readers loans today).map Reader.id).Nodup := by
  have hmem : ∀ r, r ∈ get_debtors readers loans today ↔
      r ∈ readers ∧ ∃ l ∈ loans, l.reader_id = r.id ∧
        Loan.statusExpr l today = "overdue" := by
    intro r
    unfold get_debtors
    rw [List.mem_dedup, List.mem_flatMap]
    constructor
    · rintro ⟨r0, hr0, hr⟩
      rw [List.mem_filterMap] at hr
      obtain ⟨l, hl, hsome⟩ := hr
      by_cases hc : r0.id = l.reader_id ∧ Loan.statusExpr l today = "overdue"
      · rw [if_pos hc] at hsome
        cases hsome
        exact ⟨hr0, l, hl, hc.1.symm, hc.2⟩
      · rw [if_neg hc] at hsome
        cases hsome
    · rintro ⟨hr, l, hl, hrid, hst⟩
      exact ⟨r, hr, List.mem_filterMap.mpr ⟨l, hl, if_pos ⟨hrid.symm, hst⟩⟩⟩
  have hnd : (get_debtors readers loans today).Nodup := by
    unfold get_debtors
    exact List.nodup_dedup _
  refine ⟨hmem, fun l => ?_, hnd, ?_⟩
  · unfold Loan.statusExpr
    by_cases h1 : l.return_date ≠ none
    · simp [h1]
    · rw [not_not] at h1
      by_cases h2 : l.due_date < today <;> simp [h1, h2]
  · apply List.Nodup.map_on ?_ hnd
    intro x hx y hy hxy
    exact List.inj_on_of_nodup_map hids ((hmem x).mp hx).1
      ((hmem y).mp hy).1 hxy

/-- Witness for C9 on a concrete pair of tables: reader 1 has an overdue
loan (due yesterday, not returned), reader 2 does not. -/
theorem C9_debtors_characterization_witness :
    (List.map Reader.id
      [⟨1, "a@mail.ru", true⟩, ⟨2, "b@mail.ru", true⟩]).Nodup ∧
    (get_debtors [⟨1, "a@mail.ru", true⟩, ⟨2, "b@mail.ru", true⟩]
      [⟨1, 5, 1, 0, -1, none⟩] 0).Nodup :=
  ⟨by decide,
   (C9_debtors_characterization
      [⟨1, "a@mail.ru", true⟩, ⟨2, "b@mail.ru", true⟩]
      [⟨1, 5, 1, 0, -1, none⟩] 0 (by decide)).2.2.1⟩

end Library
